import Mathlib

/-!
Verification of the client-side authentication session state machine of the
AI Image Gallery frontend: the Pinia auth store (`src/frontend/src/stores/auth.ts`),
the router navigation guard (`src/frontend/src/main.ts`) and the axios response
interceptor of the API client (`src/services/api.ts`).

The TypeScript code is shallowly embedded as pure Lean functions.  Each async
store operation is modelled as a function from the pre-state and the backend
outcome of its single HTTP call to the post-state plus its own outcome; a JS
promise rejection is an `Except.error`.  JS-falsy string values (undefined,
null, the empty string) are uniformly modelled as `none : Option String`, so
the `a || b || c` fallback chains of the source become `jsOr`.
-/

/-- The identity record returned by the backend (`UserOut` in `api.ts`).
`access_token` is nullable in the source and irrelevant to the session
state machine, so it is kept as an `Option`. -/
structure UserOut where
  user_id : String
  email : String
  access_token : Option String
deriving DecidableEq, Repr

/-- An HTTP/transport failure as observed by the frontend: the optional
response status (`err.response?.status`), the optional server-provided
detail message (`err.response?.data?.detail`) and the optional transport
message (`err.message`).  `none` models a JS-falsy value. -/
structure ApiError where
  status : Option Nat
  detail : Option String
  message : Option String
deriving DecidableEq, Repr

/-- JS `a || b` on the string fields above: a truthy left operand wins,
otherwise the right operand is taken. -/
def jsOr (a : Option String) (b : String) : String :=
  match a with
  | some s => s
  | none => b

/-- Global DOM events dispatched by the code; the only one used is the
`auth:logout` session-ended broadcast. -/
inductive Event
  | authLogout
deriving DecidableEq, Repr

/-- The reactive state of the Pinia auth store (`useAuthStore`):
`user`, `isLoading`, `error`, `isInitialized`, `hasCredentials`. -/
structure AuthState where
  user : Option UserOut
  isLoading : Bool
  error : Option String
  isInitialized : Bool
  hasCredentials : Bool
deriving DecidableEq, Repr

/-- The store's initial state: all refs start as `null` / `false`. -/
def initState : AuthState :=
  { user := none, isLoading := false, error := none,
    isInitialized := false, hasCredentials := false }

/-- `login` of the auth store.  Sets `isLoading`/clears `error`, awaits the
backend; on success stores the user and sets `hasCredentials`, returning the
record; on failure sets `error` via the detail/message/default fallback chain
and re-raises; `finally` clears `isLoading`. -/
def login (s : AuthState) (outcome : Except ApiError UserOut) :
    AuthState × Except ApiError UserOut :=
  let s1 := { s with isLoading := true, error := none }
  match outcome with
  | .ok u =>
      ({ s1 with user := some u, hasCredentials := true, isLoading := false },
       .ok u)
  | .error e =>
      ({ s1 with error := some (jsOr e.detail (jsOr e.message "Login failed")),
                 isLoading := false },
       .error e)

/-- `signup` of the auth store: identical to `login` except for the endpoint
and the default error text. -/
def signup (s : AuthState) (outcome : Except ApiError UserOut) :
    AuthState × Except ApiError UserOut :=
  let s1 := { s with isLoading := true, error := none }
  match outcome with
  | .ok u =>
      ({ s1 with user := some u, hasCredentials := true, isLoading := false },
       .ok u)
  | .error e =>
      ({ s1 with error := some (jsOr e.detail (jsOr e.message "Signup failed")),
                 isLoading := false },
       .error e)

/-- `ApiClient.logout`: posts `/auth/logout`; its `finally` always dispatches
the `auth:logout` event, and a rejection of the post still propagates. -/
def apiClientLogout (outcome : Except ApiError Unit) :
    Except ApiError Unit × List Event :=
  (outcome, [Event.authLogout])

/-- `logout` of the auth store.  Whatever the backend outcome, `user` and
`hasCredentials` are cleared; on failure the store additionally dispatches
`auth:logout` itself and re-raises the error; `finally` clears `isLoading`.
The returned event list collects every `auth:logout` dispatch (the API
client's plus, on failure, the store's own). -/
def logout (s : AuthState) (outcome : Except ApiError Unit) :
    AuthState × Except ApiError Unit × List Event :=
  let s1 := { s with isLoading := true, error := none }
  let (res, evs) := apiClientLogout outcome
  match res with
  | .ok _ =>
      ({ s1 with user := none, hasCredentials := false, isLoading := false },
       .ok (), evs)
  | .error e =>
      ({ s1 with user := none, hasCredentials := false, isLoading := false },
       .error e, evs ++ [Event.authLogout])

/-- `fetchCurrentUser` of the auth store.  On success stores the user and
sets `hasCredentials`; on any failure clears both and returns `null`
instead of raising; `finally` clears `isLoading` and sets `isInitialized`.
The result type `Except ApiError (Option UserOut)` records that the JS
function could in principle reject; it provably never does. -/
def fetchCurrentUser (s : AuthState) (outcome : Except ApiError UserOut) :
    AuthState × Except ApiError (Option UserOut) :=
  let s1 := { s with isLoading := true, error := none }
  match outcome with
  | .ok u =>
      ({ s1 with user := some u, hasCredentials := true,
                 isLoading := false, isInitialized := true },
       .ok (some u))
  | .error _ =>
      ({ s1 with user := none, hasCredentials := false,
                 isLoading := false, isInitialized := true },
       .ok none)

/-- `restoreAuthFromCookies` of the auth store.  Does not touch `isLoading`
or `error`; on success stores the user and sets `hasCredentials`, on any
failure clears both and returns `null`; `finally` sets `isInitialized`.
As with `fetchCurrentUser`, the `Except` result records that it never
rejects. -/
def restoreAuthFromCookies (s : AuthState) (outcome : Except ApiError UserOut) :
    AuthState × Except ApiError (Option UserOut) :=
  match outcome with
  | .ok u =>
      ({ s with user := some u, hasCredentials := true, isInitialized := true },
       .ok (some u))
  | .error _ =>
      ({ s with user := none, hasCredentials := false, isInitialized := true },
       .ok none)

/-- `requestPasswordReset` of the auth store: pass-through; on failure sets
`error` via the fallback chain and re-raises; `finally` clears `isLoading`. -/
def requestPasswordReset (s : AuthState) (outcome : Except ApiError String) :
    AuthState × Except ApiError String :=
  let s1 := { s with isLoading := true, error := none }
  match outcome with
  | .ok m => ({ s1 with isLoading := false }, .ok m)
  | .error e =>
      ({ s1 with
          error := some (jsOr e.detail (jsOr e.message "Password reset failed")),
          isLoading := false },
       .error e)

/-- `updatePassword` of the auth store: same shape as `requestPasswordReset`
with its own default error text. -/
def updatePassword (s : AuthState) (outcome : Except ApiError String) :
    AuthState × Except ApiError String :=
  let s1 := { s with isLoading := true, error := none }
  match outcome with
  | .ok m => ({ s1 with isLoading := false }, .ok m)
  | .error e =>
      ({ s1 with
          error := some (jsOr e.detail (jsOr e.message "Update password failed")),
          isLoading := false },
       .error e)

/-- `clearError` of the auth store. -/
def clearError (s : AuthState) : AuthState :=
  { s with error := none }

/-- One invocation of a public store operation together with the backend
outcome of the HTTP call it performs (if any). -/
inductive Op
  | login (outcome : Except ApiError UserOut)
  | signup (outcome : Except ApiError UserOut)
  | logout (outcome : Except ApiError Unit)
  | fetchCurrentUser (outcome : Except ApiError UserOut)
  | restore (outcome : Except ApiError UserOut)
  | requestPasswordReset (outcome : Except ApiError String)
  | updatePassword (outcome : Except ApiError String)
  | clearError
deriving Repr

/-- State transition of a single completed store operation (the state
component of the corresponding function above). -/
def step (s : AuthState) : Op → AuthState
  | .login o => (login s o).1
  | .signup o => (signup s o).1
  | .logout o => (logout s o).1
  | .fetchCurrentUser o => (fetchCurrentUser s o).1
  | .restore o => (restoreAuthFromCookies s o).1
  | .requestPasswordReset o => (requestPasswordReset s o).1
  | .updatePassword o => (updatePassword s o).1
  | .clearError => clearError s

/-- Run a sequence of completed store operations from a state. -/
def runOps (s : AuthState) : List Op → AuthState
  | [] => s
  | op :: l => runOps (step s op) l

/-- A store state reachable by some sequence of completed operations from
the initial state. -/
def ReachableState (s : AuthState) : Prop :=
  ∃ l : List Op, runOps initState l = s

/-- The data of a navigation destination the guard inspects: `dest.name`,
`to.meta.requiresAuth` (written `requiresAuth` here) and `dest.fullPath`. -/
structure RouteLocation where
  name : Option String
  requiresAuth : Bool
  fullPath : String
deriving DecidableEq, Repr

/-- The guard's decision: proceed, or redirect to a named destination,
optionally carrying a `redirect` query parameter. -/
inductive GuardDecision
  | allow
  | redirect (name : String) (redirectQuery : Option String)
deriving DecidableEq, Repr

/-- The `router.beforeEach` guard of `main.ts`, evaluated after the startup
restoration promise has settled.  Inputs: the store state, the destination,
and the backend outcome of the identity fetch the guard would perform in its
lazy-fetch branch.  Outputs: the store state afterwards, the decision, and
the number of identity-fetch network calls performed. -/
def beforeEach (s : AuthState) (dest : RouteLocation)
    (fetchOutcome : Except ApiError UserOut) :
    AuthState × GuardDecision × Nat :=
  if dest.name = some "login" ∧ s.user.isSome then
    (s, .redirect "home" none, 0)
  else if dest.requiresAuth then
    if s.hasCredentials = false then
      (s, .redirect "login" (some dest.fullPath), 0)
    else if s.user.isSome then
      (s, .allow, 0)
    else
      let (s1, res) := fetchCurrentUser s fetchOutcome
      match res with
      | .ok (some _) => (s1, .allow, 1)
      | .ok none => (s1, .redirect "login" (some dest.fullPath), 1)
      | .error _ =>
          ({ s1 with user := none }, .redirect "login" (some dest.fullPath), 1)
  else
    (s, .allow, 0)

/-- A record of the router's route table (`routes` in the router module):
its path, name and `meta` fields.  `requiresAuth` is an `Option` because
the 404 route's meta omits the key, which the guard reads as a falsy JS
`undefined`. -/
structure RouteRecord where
  path : String
  name : String
  requiresAuth : Option Bool
  title : String
deriving DecidableEq, Repr

/-- The route table of the router module: login, signup, forgot-password,
update-password, home and the catch-all 404 route, with their `meta`
entries as written in the source. -/
def routes : List RouteRecord :=
  [⟨"/login", "login", some false, "Login"⟩,
   ⟨"/signup", "signup", some false, "Sign Up"⟩,
   ⟨"/forgot-password", "forgot-password", some false, "Forgot Password"⟩,
   ⟨"/update-password", "update-password", some true, "Update Password"⟩,
   ⟨"/", "home", some true, "Home"⟩,
   ⟨"/:pathMatch(.*)*", "not-found", none, "404 Not Found"⟩]

/-- A guard destination as the router resolves it from the route table:
`name` and the truthy reading of `meta.requiresAuth` come from one of the
table's records, while `fullPath` varies with the concrete navigation. -/
def resolvedFromRoutes (dest : RouteLocation) : Prop :=
  ∃ r ∈ routes, dest.name = some r.name ∧
    dest.requiresAuth = r.requiresAuth.getD false

/-- An axios request config as the interceptor sees it: its URL and the
per-call `_retry` flag. -/
structure AxiosRequest where
  url : String
  retryFlag : Bool
deriving DecidableEq, Repr

/-- An axios error: the failing request's config and the optional response
status (`error.response?.status`). -/
structure AxiosErr where
  config : AxiosRequest
  status : Option Nat
deriving DecidableEq, Repr

/-- Whether the first list occurs as a contiguous sublist of the second. -/
def listHasInfix (sub : List Char) : List Char → Bool
  | [] => sub.isEmpty
  | c :: rest => sub.isPrefixOf (c :: rest) || listHasInfix sub rest

/-- JS `string.includes(sub)`. -/
def jsIncludes (s sub : String) : Bool :=
  listHasInfix sub.toList s.toList

/-- The URL test of the response interceptor: auth endpoints are never
retried. -/
def isAuthEndpointUrl (url : String) : Bool :=
  jsIncludes url "/auth/login" || jsIncludes url "/auth/signup" ||
  jsIncludes url "/auth/logout" || jsIncludes url "/auth/refresh"

/-- What one pass of the response interceptor did for a failed response:
how many `/auth/refresh` calls it made, whether it replayed the original
request (and with which config), which events it dispatched, and what it
settled to — `some e` means the promise is rejected with the axios error
`e`, `none` means the original request was replayed and the caller gets
the replay's outcome. -/
structure InterceptOutcome where
  refreshCalls : Nat
  replayedRequest : Option AxiosRequest
  events : List Event
  rejectedWith : Option AxiosErr
deriving DecidableEq, Repr

/-- The response-error interceptor installed in the `ApiClient` constructor.
`e` is the incoming axios error; `refreshOutcome` is the backend outcome of
the `/auth/refresh` call the interceptor would make.  Auth-endpoint URLs are
rejected unchanged; a first 401 on any other URL marks the request retried,
refreshes once and replays; a failed refresh dispatches `auth:logout` and
rejects with the refresh call's error; everything else is rejected
unchanged. -/
def responseInterceptor (e : AxiosErr)
    (refreshOutcome : Except AxiosErr Unit) : InterceptOutcome :=
  if isAuthEndpointUrl e.config.url then
    { refreshCalls := 0, replayedRequest := none, events := [],
      rejectedWith := some e }
  else if e.status = some 401 ∧ e.config.retryFlag = false then
    match refreshOutcome with
    | .ok _ =>
        { refreshCalls := 1,
          replayedRequest := some { e.config with retryFlag := true },
          events := [], rejectedWith := none }
    | .error re =>
        { refreshCalls := 1, replayedRequest := none,
          events := [Event.authLogout], rejectedWith := some re }
  else
    { refreshCalls := 0, replayedRequest := none, events := [],
      rejectedWith := some e }

/-- C2: for every backend outcome of the logout request, after `logout`
settles `user` is `null` and `hasCredentials` is `false`; on remote failure
the underlying error is re-raised after local state is cleared and the
global `auth:logout` session-ended event is dispatched. -/
theorem c2_logout_always_clears_state (s : AuthState)
    (outcome : Except ApiError Unit) :
    (logout s outcome).1.user = none ∧
    (logout s outcome).1.hasCredentials = false ∧
    ∀ e, outcome = .error e →
      (logout s outcome).2.1 = .error e ∧
      Event.authLogout ∈ (logout s outcome).2.2 := by
  cases outcome <;>
    simp [logout, apiClientLogout]

/-- C2 witness: concrete evaluation of `logout` on a failing backend. -/
theorem c2_logout_always_clears_state_witness :
    (logout initState (.error ⟨some 500, none, none⟩)).1.user = none ∧
    (logout initState (.error ⟨some 500, none, none⟩)).1.hasCredentials = false ∧
    ∀ e, (Except.error ⟨some 500, none, none⟩ : Except ApiError Unit) = .error e →
      (logout initState (.error ⟨some 500, none, none⟩)).2.1 = .error e ∧
      Event.authLogout ∈ (logout initState (.error ⟨some 500, none, none⟩)).2.2 :=
  c2_logout_always_clears_state initState (.error ⟨some 500, none, none⟩)

/-- C3: `restoreAuthFromCookies` never rejects; on success it stores the
fetched identity record and sets `hasCredentials`; on any failure it clears
`user` and `hasCredentials`; on every exit path it sets `isInitialized`. -/
theorem c3_restore_contract (s : AuthState) (outcome : Except ApiError UserOut) :
    (∃ v, (restoreAuthFromCookies s outcome).2 = .ok v) ∧
    (∀ u, outcome = .ok u →
      (restoreAuthFromCookies s outcome).1.user = some u ∧
      (restoreAuthFromCookies s outcome).1.hasCredentials = true) ∧
    (∀ e, outcome = .error e →
      (restoreAuthFromCookies s outcome).1.user = none ∧
      (restoreAuthFromCookies s outcome).1.hasCredentials = false) ∧
    (restoreAuthFromCookies s outcome).1.isInitialized = true := by
  cases outcome <;>
    simp [restoreAuthFromCookies]

/-- C3 witness: concrete evaluation of `restoreAuthFromCookies` on a failing
backend. -/
theorem c3_restore_contract_witness :
    (∃ v, (restoreAuthFromCookies initState (.error ⟨none, none, none⟩)).2
        = .ok v) ∧
    (∀ u, (Except.error ⟨none, none, none⟩ : Except ApiError UserOut) = .ok u →
      (restoreAuthFromCookies initState (.error ⟨none, none, none⟩)).1.user
          = some u ∧
      (restoreAuthFromCookies initState
          (.error ⟨none, none, none⟩)).1.hasCredentials = true) ∧
    (∀ e, (Except.error ⟨none, none, none⟩ : Except ApiError UserOut)
        = .error e →
      (restoreAuthFromCookies initState (.error ⟨none, none, none⟩)).1.user
          = none ∧
      (restoreAuthFromCookies initState
          (.error ⟨none, none, none⟩)).1.hasCredentials = false) ∧
    (restoreAuthFromCookies initState
        (.error ⟨none, none, none⟩)).1.isInitialized = true :=
  c3_restore_contract initState (.error ⟨none, none, none⟩)

/-- C8: a failing `login` sets the error message to the server-provided
detail when present, else the transport message, else `"Login failed"`, and
re-raises the failure; a successful `login` stores the identity record, sets
`hasCredentials` and returns the record. -/
theorem c8_login_contract (s : AuthState) :
    (∀ u, (login s (.ok u)).1.user = some u ∧
      (login s (.ok u)).1.hasCredentials = true ∧
      (login s (.ok u)).2 = .ok u) ∧
    ∀ e, (login s (.error e)).2 = .error e ∧
      (∀ d, e.detail = some d → (login s (.error e)).1.error = some d) ∧
      (∀ m, e.detail = none → e.message = some m →
        (login s (.error e)).1.error = some m) ∧
      (e.detail = none → e.message = none →
        (login s (.error e)).1.error = some "Login failed") := by
  refine ⟨fun u => by simp [login], fun e => ?_⟩
  refine ⟨by simp [login], fun d hd => ?_, fun m hd hm => ?_, fun hd hm => ?_⟩ <;>
    simp [login, jsOr, hd] <;> simp [hm]

/-- C8 witness: concrete evaluations of `login` at each level of the
error-message fallback chain. -/
theorem c8_login_contract_witness :
    (login initState (.error ⟨some 401, some "Invalid credentials", some "Request failed"⟩)).1.error
        = some "Invalid credentials" ∧
    (login initState (.error ⟨none, none, some "Network Error"⟩)).1.error
        = some "Network Error" ∧
    (login initState (.error ⟨none, none, none⟩)).1.error
        = some "Login failed" :=
  ⟨((c8_login_contract initState).2
      ⟨some 401, some "Invalid credentials", some "Request failed"⟩).2.1
      "Invalid credentials" rfl,
   ((c8_login_contract initState).2
      ⟨none, none, some "Network Error"⟩).2.2.1 "Network Error" rfl rfl,
   ((c8_login_contract initState).2 ⟨none, none, none⟩).2.2.2 rfl rfl⟩

/-- C10: a failing `login` or `signup` leaves `user`, `hasCredentials` and
`isInitialized` unchanged; only `error` and `isLoading` are touched on the
error path. -/
theorem c10_failure_preserves_session_fields (s : AuthState) (e : ApiError) :
    ((login s (.error e)).1.user = s.user ∧
     (login s (.error e)).1.hasCredentials = s.hasCredentials ∧
     (login s (.error e)).1.isInitialized = s.isInitialized) ∧
    ((signup s (.error e)).1.user = s.user ∧
     (signup s (.error e)).1.hasCredentials = s.hasCredentials ∧
     (signup s (.error e)).1.isInitialized = s.isInitialized) := by
  simp [login, signup]

/-- C10 witness: concrete evaluation on a populated state. -/
theorem c10_failure_preserves_session_fields_witness :
    ((login { initState with
        user := some ⟨"u1", "a@b.com", none⟩, hasCredentials := true,
        isInitialized := true }
      (.error ⟨some 500, none, none⟩)).1.user = some ⟨"u1", "a@b.com", none⟩) ∧
    ((login { initState with
        user := some ⟨"u1", "a@b.com", none⟩, hasCredentials := true,
        isInitialized := true }
      (.error ⟨some 500, none, none⟩)).1.hasCredentials = true) :=
  ⟨(c10_failure_preserves_session_fields
      { initState with
          user := some ⟨"u1", "a@b.com", none⟩,
          hasCredentials := true, isInitialized := true }
      ⟨some 500, none, none⟩).1.1,
   (c10_failure_preserves_session_fields
      { initState with
          user := some ⟨"u1", "a@b.com", none⟩,
          hasCredentials := true, isInitialized := true }
      ⟨some 500, none, none⟩).1.2.1⟩

/-- Helper: every single completed store operation preserves a cleared
`isLoading` flag — the operations that set it true clear it in `finally`,
and the others never touch it. -/
theorem step_isLoading_false (s : AuthState) (op : Op)
    (h : s.isLoading = false) : (step s op).isLoading = false := by
  cases op with
  | login o => cases o <;> simp [step, login]
  | signup o => cases o <;> simp [step, signup]
  | logout o => cases o <;> simp [step, logout, apiClientLogout]
  | fetchCurrentUser o => cases o <;> simp [step, fetchCurrentUser]
  | restore o => cases o <;> simp [step, restoreAuthFromCookies, h]
  | requestPasswordReset o => cases o <;> simp [step, requestPasswordReset]
  | updatePassword o => cases o <;> simp [step, updatePassword]
  | clearError => simp [step, clearError, h]

/-- Helper: `isLoading` is false after any sequence of completed operations
from a state where it is false. -/
theorem runOps_isLoading_false (l : List Op) (s : AuthState)
    (h : s.isLoading = false) : (runOps s l).isLoading = false := by
  induction l generalizing s with
  | nil => exact h
  | cons op l ih => exact ih _ (step_isLoading_false s op h)

/-- C9: no public store operation leaves `isLoading` stuck true — each
single completed operation exits with `isLoading` false whenever it entered
with it false, and along every sequence of completed operations from the
initial state `isLoading` is false after each operation. -/
theorem c9_isLoading_cleared_on_every_exit :
    (∀ s op, s.isLoading = false → (step s op).isLoading = false) ∧
    ∀ l, (runOps initState l).isLoading = false := by
  exact ⟨step_isLoading_false, fun l => runOps_isLoading_false l initState rfl⟩

/-- C9 witness: concrete instantiation on a failing-login sequence. -/
theorem c9_isLoading_cleared_on_every_exit_witness :
    (runOps initState
      [Op.restore (.error ⟨none, none, none⟩),
       Op.login (.error ⟨some 401, some "Invalid credentials", none⟩),
       Op.login (.ok ⟨"u1", "a@b.com", none⟩)]).isLoading = false :=
  c9_isLoading_cleared_on_every_exit.2
    [Op.restore (.error ⟨none, none, none⟩),
     Op.login (.error ⟨some 401, some "Invalid credentials", none⟩),
     Op.login (.ok ⟨"u1", "a@b.com", none⟩)]

/-- Helper: once `isInitialized` is true, no single operation resets it. -/
theorem step_isInitialized_mono (s : AuthState) (op : Op)
    (h : s.isInitialized = true) : (step s op).isInitialized = true := by
  cases op with
  | login o => cases o <;> simp [step, login, h]
  | signup o => cases o <;> simp [step, signup, h]
  | logout o => cases o <;> simp [step, logout, apiClientLogout, h]
  | fetchCurrentUser o => cases o <;> simp [step, fetchCurrentUser]
  | restore o => cases o <;> simp [step, restoreAuthFromCookies]
  | requestPasswordReset o => cases o <;> simp [step, requestPasswordReset, h]
  | updatePassword o => cases o <;> simp [step, updatePassword, h]
  | clearError => simp [step, clearError, h]

/-- Helper: the only operations that can flip `isInitialized` to true are
the two restoration attempts (`restoreAuthFromCookies` and the
`fetchCurrentUser` it shares its `finally` behaviour with). -/
theorem step_isInitialized_source (s : AuthState) (op : Op)
    (h : (step s op).isInitialized = true) :
    s.isInitialized = true ∨ (∃ o, op = Op.restore o) ∨
    ∃ o, op = Op.fetchCurrentUser o := by
  cases op with
  | login o =>
      cases o <;> simp [step, login] at h <;> exact Or.inl h
  | signup o =>
      cases o <;> simp [step, signup] at h <;> exact Or.inl h
  | logout o =>
      cases o <;> simp [step, logout, apiClientLogout] at h <;> exact Or.inl h
  | fetchCurrentUser o => exact Or.inr (Or.inr ⟨o, rfl⟩)
  | restore o => exact Or.inr (Or.inl ⟨o, rfl⟩)
  | requestPasswordReset o =>
      cases o <;> simp [step, requestPasswordReset] at h <;> exact Or.inl h
  | updatePassword o =>
      cases o <;> simp [step, updatePassword] at h <;> exact Or.inl h
  | clearError => simp [step, clearError] at h; exact Or.inl h

/-- C7: `isInitialized` starts false, becomes true at the completion of the
first restoration attempt (the bootstrap `restoreAuthFromCookies`, whatever
its outcome), never reverts along any later sequence of operations, and no
operation other than a restoration attempt (`restore` / `fetchCurrentUser`)
can be the one that sets it — so the false-to-true transition happens
exactly once, at the first completed restoration attempt. -/
theorem c7_isInitialized_set_once :
    initState.isInitialized = false ∧
    (∀ o, (step initState (Op.restore o)).isInitialized = true) ∧
    (∀ s op, s.isInitialized = true → (step s op).isInitialized = true) ∧
    (∀ o l, (runOps (step initState (Op.restore o)) l).isInitialized = true) ∧
    ∀ s op, (step s op).isInitialized = true →
      s.isInitialized = true ∨ (∃ o, op = Op.restore o) ∨
      ∃ o, op = Op.fetchCurrentUser o := by
  refine ⟨rfl, fun o => ?_, step_isInitialized_mono, fun o l => ?_,
    step_isInitialized_source⟩
  · cases o <;> simp [step, restoreAuthFromCookies]
  · have h0 : (step initState (Op.restore o)).isInitialized = true := by
      cases o <;> simp [step, restoreAuthFromCookies]
    have : ∀ (l : List Op) (s : AuthState), s.isInitialized = true →
        (runOps s l).isInitialized = true := by
      intro l
      induction l with
      | nil => exact fun s h => h
      | cons op l ih => exact fun s h => ih _ (step_isInitialized_mono s op h)
    exact this l _ h0

/-- C7 witness: concrete instantiation — after a failed bootstrap
restoration followed by a logout, `isInitialized` is still true. -/
theorem c7_isInitialized_set_once_witness :
    (runOps (step initState (Op.restore (.error ⟨none, none, none⟩)))
      [Op.logout (.ok ())]).isInitialized = true :=
  c7_isInitialized_set_once.2.2.2.1 (.error ⟨none, none, none⟩)
    [Op.logout (.ok ())]

/-- Helper: every single completed store operation preserves the invariant
that a present identity record implies the credential flag — each operation
either sets both together or clears both together. -/
theorem step_user_implies_creds (s : AuthState) (op : Op)
    (h : s.user.isSome → s.hasCredentials = true) :
    (step s op).user.isSome → (step s op).hasCredentials = true := by
  cases op with
  | login o =>
      cases o with
      | ok u => simp [step, login]
      | error e => simpa [step, login] using h
  | signup o =>
      cases o with
      | ok u => simp [step, signup]
      | error e => simpa [step, signup] using h
  | logout o => cases o <;> simp [step, logout, apiClientLogout]
  | fetchCurrentUser o => cases o <;> simp [step, fetchCurrentUser]
  | restore o => cases o <;> simp [step, restoreAuthFromCookies]
  | requestPasswordReset o =>
      cases o <;> simp [step, requestPasswordReset] <;> exact h
  | updatePassword o =>
      cases o <;> simp [step, updatePassword] <;> exact h
  | clearError => simp [step, clearError]; exact h

/-- Helper: in every reachable store state, a present identity record
implies `hasCredentials = true`. -/
theorem reachable_user_implies_creds (s : AuthState) (hs : ReachableState s) :
    s.user.isSome → s.hasCredentials = true := by
  obtain ⟨l, hl⟩ := hs
  subst hl
  have : ∀ (l : List Op) (s0 : AuthState),
      (s0.user.isSome → s0.hasCredentials = true) →
      (runOps s0 l).user.isSome → (runOps s0 l).hasCredentials = true := by
    intro l
    induction l with
    | nil => exact fun s0 h => h
    | cons op l ih =>
        exact fun s0 h => ih _ (step_user_implies_creds s0 op h)
  exact this l initState (by simp [initState])

/-- C4: in every reachable store state, navigating to an auth-required
destination with `hasCredentials = false` makes the guard redirect to login
carrying the originally requested full path in the `redirect` query. -/
theorem c4_guard_redirects_without_credentials (s : AuthState)
    (dest : RouteLocation) (f : Except ApiError UserOut)
    (hs : ReachableState s) (hauth : dest.requiresAuth = true)
    (hcred : s.hasCredentials = false) :
    (beforeEach s dest f).2.1
      = GuardDecision.redirect "login" (some dest.fullPath) := by
  have huser : s.user.isSome = false := by
    cases hu : s.user.isSome with
    | false => rfl
    | true => rw [reachable_user_implies_creds s hs hu] at hcred; cases hcred
  simp [beforeEach, huser, hauth, hcred]

/-- C4 witness: the initial state (reachable by the empty sequence) with an
auth-required destination. -/
theorem c4_guard_redirects_without_credentials_witness :
    (beforeEach initState ⟨some "home", true, "/"⟩
      (.error ⟨none, none, none⟩)).2.1
      = GuardDecision.redirect "login" (some "/") :=
  c4_guard_redirects_without_credentials initState ⟨some "home", true, "/"⟩
    (.error ⟨none, none, none⟩) ⟨[], rfl⟩ rfl rfl

/-- Helper: in the route table, a record named `login` never has a truthy
`requiresAuth` — in the source its meta is `requiresAuth: false`. -/
theorem routes_login_not_auth (r : RouteRecord) (hr : r ∈ routes)
    (hname : r.name = "login") : r.requiresAuth.getD false = false := by
  simp only [routes, List.mem_cons, List.not_mem_nil, or_false] at hr
  rcases hr with rfl | rfl | rfl | rfl | rfl | rfl <;>
    first
      | rfl
      | exact absurd hname (by decide)

/-- C5: navigating to an auth-required destination of the route table (such
a destination is not the login page, whose record has `requiresAuth: false`)
with `hasCredentials` true: with an identity record already present the
guard allows with no identity-fetch network call and no state change; with
no identity record it performs exactly one identity fetch, allows on
success, and on failure leaves `user` null, sets `hasCredentials` false and
redirects to login with the redirect-back query. -/
theorem c5_guard_lazy_identity_fetch (s : AuthState) (dest : RouteLocation)
    (f : Except ApiError UserOut) (hroute : resolvedFromRoutes dest)
    (hauth : dest.requiresAuth = true) (hcred : s.hasCredentials = true) :
    (s.user.isSome → beforeEach s dest f = (s, GuardDecision.allow, 0)) ∧
    (s.user = none →
      (beforeEach s dest f).2.2 = 1 ∧
      (∀ u, f = .ok u → (beforeEach s dest f).2.1 = GuardDecision.allow) ∧
      ∀ e, f = .error e →
        (beforeEach s dest f).1.user = none ∧
        (beforeEach s dest f).1.hasCredentials = false ∧
        (beforeEach s dest f).2.1
          = GuardDecision.redirect "login" (some dest.fullPath)) := by
  have hname : dest.name ≠ some "login" := by
    intro h
    obtain ⟨r, hr, hn, ha⟩ := hroute
    rw [h] at hn
    have hrl : r.name = "login" := Option.some_injective _ hn.symm
    rw [ha, routes_login_not_auth r hr hrl] at hauth
    cases hauth
  constructor
  · intro hu
    simp [beforeEach, hname, hauth, hcred, hu]
  · intro hu
    cases f <;> simp [beforeEach, hname, hauth, hcred, hu, fetchCurrentUser]

/-- C5 witness: the post-reload state (`hasCredentials` true, `user` null)
navigating to `/` with a failing identity fetch. -/
theorem c5_guard_lazy_identity_fetch_witness :
    ((beforeEach { initState with hasCredentials := true }
        ⟨some "home", true, "/"⟩ (.error ⟨some 401, none, none⟩)).2.2 = 1) ∧
    ((beforeEach { initState with hasCredentials := true }
        ⟨some "home", true, "/"⟩ (.error ⟨some 401, none, none⟩)).1.user
        = none) ∧
    ((beforeEach { initState with hasCredentials := true }
        ⟨some "home", true, "/"⟩
        (.error ⟨some 401, none, none⟩)).1.hasCredentials = false) ∧
    ((beforeEach { initState with hasCredentials := true }
        ⟨some "home", true, "/"⟩ (.error ⟨some 401, none, none⟩)).2.1
        = GuardDecision.redirect "login" (some "/")) := by
  have h := (c5_guard_lazy_identity_fetch
    { initState with hasCredentials := true } ⟨some "home", true, "/"⟩
    (.error ⟨some 401, none, none⟩)
    ⟨⟨"/", "home", some true, "Home"⟩, by simp [routes], rfl, rfl⟩
    rfl rfl).2 rfl
  exact ⟨h.1, (h.2.2 ⟨some 401, none, none⟩ rfl).1,
    (h.2.2 ⟨some 401, none, none⟩ rfl).2.1,
    (h.2.2 ⟨some 401, none, none⟩ rfl).2.2⟩

/-- C6: navigating to the login destination while an identity record is
present makes the guard redirect to home, regardless of the destination's
auth requirement or the credential flag — the rule precedes the
authentication-requirement rules. -/
theorem c6_login_page_redirects_home (s : AuthState) (dest : RouteLocation)
    (f : Except ApiError UserOut) (hname : dest.name = some "login")
    (huser : s.user.isSome = true) :
    (beforeEach s dest f).2.1 = GuardDecision.redirect "home" none := by
  simp [beforeEach, hname, huser]

/-- C6 witness: a logged-in state navigating to the login page. -/
theorem c6_login_page_redirects_home_witness :
    (beforeEach
      { initState with
          user := some ⟨"u1", "a@b.com", none⟩, hasCredentials := true }
      ⟨some "login", false, "/login"⟩ (.error ⟨none, none, none⟩)).2.1
      = GuardDecision.redirect "home" none :=
  c6_login_page_redirects_home
    { initState with
        user := some ⟨"u1", "a@b.com", none⟩, hasCredentials := true }
    ⟨some "login", false, "/login"⟩ (.error ⟨none, none, none⟩) rfl rfl

/-- C1 counterexample: a non-auth request (`/images/1`) fails with 401 and
has not been retried; the refresh call fails with its own distinct error.
The interceptor rejects with the refresh call's error, which differs from
the original call's error — refuting the claim that the original call's
failure is what propagates. -/
theorem c1_counterexample :
    ((responseInterceptor ⟨⟨"/images/1", false⟩, some 401⟩
        (Except.error ⟨⟨"/auth/refresh", false⟩, some 403⟩)).rejectedWith
      = some ⟨⟨"/auth/refresh", false⟩, some 403⟩) ∧
    (⟨⟨"/auth/refresh", false⟩, some 403⟩ : AxiosErr)
      ≠ ⟨⟨"/images/1", false⟩, some 401⟩ := by
  constructor
  · rfl
  · decide

/-- C1 (amended): a 401 on a non-auth endpoint that has not been retried
triggers exactly one silent refresh call; if the refresh succeeds, the
original request is replayed exactly once with its per-call retry flag set
(so a second 401 on the replay triggers no further refresh); if the refresh
fails, the `auth:logout` session-ended event is broadcast and the error
propagated to the caller is the refresh call's failure. -/
theorem c1_interceptor_refresh_once (e : AxiosErr)
    (r : Except AxiosErr Unit) (hurl : isAuthEndpointUrl e.config.url = false)
    (h401 : e.status = some 401) (hretry : e.config.retryFlag = false) :
    ((responseInterceptor e r).refreshCalls = 1) ∧
    (∀ u, r = .ok u →
      (responseInterceptor e r).replayedRequest
          = some { e.config with retryFlag := true } ∧
      (responseInterceptor e r).events = [] ∧
      (responseInterceptor e r).rejectedWith = none) ∧
    (∀ re, r = .error re →
      (responseInterceptor e r).replayedRequest = none ∧
      (responseInterceptor e r).events = [Event.authLogout] ∧
      (responseInterceptor e r).rejectedWith = some re) ∧
    (∀ e2 r2, e2.config.retryFlag = true →
      (responseInterceptor e2 r2).refreshCalls = 0 ∧
      (responseInterceptor e2 r2).replayedRequest = none ∧
      (responseInterceptor e2 r2).rejectedWith = some e2) := by
  refine ⟨?_, ?_, ?_, fun e2 r2 h2 => ?_⟩
  · cases r <;> simp [responseInterceptor, hurl, h401, hretry]
  · intro u hu
    subst hu
    simp [responseInterceptor, hurl, h401, hretry]
  · intro re hre
    subst hre
    simp [responseInterceptor, hurl, h401, hretry]
  · by_cases hu2 : isAuthEndpointUrl e2.config.url = true
    · simp [responseInterceptor, hu2]
    · cases r2 <;> simp [responseInterceptor, hu2, h2]

/-- C1 witness: concrete instantiation of the amended interceptor
behaviour at a failed refresh. -/
theorem c1_interceptor_refresh_once_witness :
    ((responseInterceptor ⟨⟨"/images/1", false⟩, some 401⟩
        (Except.error ⟨⟨"/auth/refresh", false⟩, some 403⟩)).refreshCalls
      = 1) ∧
    ((responseInterceptor ⟨⟨"/images/1", false⟩, some 401⟩
        (Except.error ⟨⟨"/auth/refresh", false⟩, some 403⟩)).events
      = [Event.authLogout]) := by
  have h := c1_interceptor_refresh_once ⟨⟨"/images/1", false⟩, some 401⟩
    (Except.error ⟨⟨"/auth/refresh", false⟩, some 403⟩) (by decide) rfl rfl
  exact ⟨h.1, (h.2.2.1 ⟨⟨"/auth/refresh", false⟩, some 403⟩ rfl).2.1⟩
